import Mathlib

/-!
Verification of the session / retry / realtime-stream layer of the ogame
automation client, as a shallow embedding of `ogame.go`.

The embedding covers:
* the error taxonomy (`GoErr`),
* the retry wrapper `withRetry` (ogame.go:1717-1769),
* the precondition check `preRequestChecks` (ogame.go:1501-1512),
* the logged-out classifier `detectLoggedOut` (ogame.go:1576-1584) together
  with the page-name helpers it uses,
* the single-request step of `pageContent` (ogame.go:1628-1646) and
  `getPageJSON` (ogame.go:1771-1780),
* the lock bookkeeping `botLock` / `botUnlock` / `stateChanged` /
  `OnStateChange` (ogame.go:4141-4161, 4310-4312),
* the legacy-dialect chat reader of `connectChatV7` (ogame.go:1205-1313),
  including its auctioneer "new bid" payload handling.

Effectful Go code is embedded as explicit state passing: outcomes of network
calls, context cancellation and re-login attempts are supplied as explicit
inputs, and writes to the websocket or calls of registered observers are
returned as explicit event lists.
-/

/-- Error values of the client's error taxonomy: `ErrBotInactive`,
`ErrBotLoggedOut`, the "serverURL is empty" error, `ErrNotLogged` (the
internal session-lost value), the five fatal authentication errors, the
terminal wrapper produced by `errors.Wrap(err, ErrFailedExecuteCallback.Error())`,
and arbitrary other (domain or transport) errors.  Distinct constructors model
the distinct Go error values that the source compares with `==`. -/
inductive GoErr where
  | botInactive
  | botLoggedOut
  | serverURLEmpty
  | notLogged
  | accountNotFound
  | accountBlocked
  | badCredentials
  | otpRequired
  | otpInvalid
  | failedExecuteCallbackWrap (inner : GoErr)
  | other (msg : String)
  deriving DecidableEq, Repr

/-- The fatal-authentication classification tested at ogame.go:1758-1762:
`ErrAccountNotFound`, `ErrAccountBlocked`, `ErrBadCredentials`,
`ErrOTPRequired`, `ErrOTPInvalid`. -/
def isFatalAuthErr : GoErr → Bool
  | .accountNotFound => true
  | .accountBlocked => true
  | .badCredentials => true
  | .otpRequired => true
  | .otpInvalid => true
  | _ => false

/-- Environment of one `withRetry` run: the outcome of the i-th execution of
the wrapped callback (`none` = success), the values read from the enabled /
logged-in atomics after the i-th failure, whether the cancellation context
fired during the wait following the i-th failure, and the outcome of the
re-login attempted after the i-th failure (`none` = success). -/
structure RetryEnv where
  fnResult : Nat → Option GoErr
  enabled : Nat → Bool
  loggedIn : Nat → Bool
  cancelled : Nat → Bool
  loginResult : Nat → Option GoErr

/-- Observable trace of one `withRetry` run: the returned error (`none` =
success), the list of backoff intervals on which a wait was entered, the
number of calls of `wrapLoginWithExistingCookies`, and the number of
executions of the wrapped callback. -/
structure RetryRun where
  result : Option GoErr
  delays : List Nat
  relogins : Nat
  execs : Nat
  deriving DecidableEq, Repr

/-- Body of `withRetry` (ogame.go:1717-1769), with the mutable loop variables
`maxRetry` and `retryInterval` and the attempt index `i` made explicit.
Each Go iteration: run `fn`; on success return nil; return `ErrBotInactive` /
`ErrBotLoggedOut` if the corresponding atomic flag is now false; decrement
`maxRetry` and, when it reaches 0, return the last error wrapped with
`ErrFailedExecuteCallback`; wait on the backoff timer or the context
(`ErrBotInactive` if the context fires), then double the interval capping it
at 60; if the failure was `ErrNotLogged`, attempt a re-login and abort with
the login error when it is a fatal auth error.
This shared iteration head is `retryIterStart`; the loop itself is
`withRetryAux` below, with the remaining `maxRetry` budget as first argument. -/
def retryIterStart (env : RetryEnv) (i : Nat) (k : GoErr → RetryRun) : RetryRun :=
  match env.fnResult i with
  | none => ⟨none, [], 0, 1⟩
  | some err =>
    if env.enabled i = false then ⟨some .botInactive, [], 0, 1⟩
    else if env.loggedIn i = false then ⟨some .botLoggedOut, [], 0, 1⟩
    else k err

def withRetryAux (env : RetryEnv) : Nat → Nat → Nat → RetryRun
  | 0, i, _ =>
    retryIterStart env i fun err => ⟨some (.failedExecuteCallbackWrap err), [], 0, 1⟩
  | 1, i, _ =>
    retryIterStart env i fun err => ⟨some (.failedExecuteCallbackWrap err), [], 0, 1⟩
  | m + 2, i, interval =>
    retryIterStart env i fun err =>
      if env.cancelled i then ⟨some .botInactive, [interval], 0, 1⟩
      else
        let interval2 := min (interval * 2) 60
        if err = GoErr.notLogged then
          match env.loginResult i with
          | some e =>
            if isFatalAuthErr e then ⟨some e, [interval], 1, 1⟩
            else
              let r := withRetryAux env (m + 1) (i + 1) interval2
              ⟨r.result, interval :: r.delays, 1 + r.relogins, 1 + r.execs⟩
          | none =>
            let r := withRetryAux env (m + 1) (i + 1) interval2
            ⟨r.result, interval :: r.delays, 1 + r.relogins, 1 + r.execs⟩
        else
          let r := withRetryAux env (m + 1) (i + 1) interval2
          ⟨r.result, interval :: r.delays, r.relogins, 1 + r.execs⟩

/-- `withRetry` (ogame.go:1717): `maxRetry` starts at 10, `retryInterval`
at 1 second. -/
def withRetry (env : RetryEnv) : RetryRun :=
  withRetryAux env 10 0 1

/-- Environment in which every callback execution fails with the session-lost
error, the bot stays enabled and logged in, the context never fires, and every
re-login succeeds. -/
def alwaysSessionLostEnv : RetryEnv :=
  ⟨fun _ => some GoErr.notLogged, fun _ => true, fun _ => true,
   fun _ => false, fun _ => none⟩

example : withRetry alwaysSessionLostEnv =
    ⟨some (GoErr.failedExecuteCallbackWrap GoErr.notLogged),
     [1, 2, 4, 8, 16, 32, 60, 60, 60], 9, 10⟩ := by
  rfl

/-- Backoff delay list generated by `k` consecutive waits starting from a given
interval, doubling and capping at 60 after each wait (ogame.go:1722-1730). -/
def delaysFrom : Nat → Nat → List Nat
  | _, 0 => []
  | interval, k + 1 => interval :: delaysFrom (min (interval * 2) 60) k

theorem withRetryAux_allNotLogged (env : RetryEnv)
    (hfn : ∀ i, env.fnResult i = some GoErr.notLogged)
    (hen : ∀ i, env.enabled i = true)
    (hlog : ∀ i, env.loggedIn i = true)
    (hcan : ∀ i, env.cancelled i = false)
    (hlogin : ∀ i e, env.loginResult i = some e → isFatalAuthErr e = false) :
    ∀ (m i interval : Nat),
      withRetryAux env (m + 1) i interval =
        ⟨some (GoErr.failedExecuteCallbackWrap GoErr.notLogged),
         delaysFrom interval m, m, m + 1⟩ := by
  intro m
  induction m with
  | zero =>
    intro i interval
    simp [withRetryAux, retryIterStart, hfn, hen, hlog, delaysFrom]
  | succ m ih =>
    intro i interval
    show withRetryAux env (m + 2) i interval = _
    cases hl : env.loginResult i with
    | none =>
      simp [withRetryAux, retryIterStart, hfn, hen, hlog, hcan, hl, ih, delaysFrom]
      omega
    | some e =>
      have hfe := hlogin i e hl
      simp [withRetryAux, retryIterStart, hfn, hen, hlog, hcan, hl, hfe, ih, delaysFrom]
      omega

/-- C1: with the callback failing on every attempt with `ErrNotLogged` and no
fatal re-login failure, `withRetry` executes the callback at most 10 times
(in fact exactly 10), attempts re-login at most 10 times, and returns the
last failure wrapped with `ErrFailedExecuteCallback` rather than
`ErrNotLogged` itself. -/
theorem withRetry_sessionLost_exhausts_then_terminal (env : RetryEnv)
    (hfn : ∀ i, env.fnResult i = some GoErr.notLogged)
    (hen : ∀ i, env.enabled i = true)
    (hlog : ∀ i, env.loggedIn i = true)
    (hcan : ∀ i, env.cancelled i = false)
    (hlogin : ∀ i e, env.loginResult i = some e → isFatalAuthErr e = false) :
    (withRetry env).execs = 10 ∧ (withRetry env).execs ≤ 10 ∧
    (withRetry env).relogins ≤ 10 ∧
    (withRetry env).result =
      some (GoErr.failedExecuteCallbackWrap GoErr.notLogged) ∧
    (withRetry env).result ≠ some GoErr.notLogged := by
  have h := withRetryAux_allNotLogged env hfn hen hlog hcan hlogin 9 0 1
  unfold withRetry
  rw [show (10 : Nat) = 9 + 1 from rfl, h]
  refine ⟨rfl, by decide, by decide, rfl, by simp⟩

/-- C2: if, at any point of the retry loop with at least two attempts of
budget left, the operation fails with `ErrNotLogged`, the wait completes, and
the automatic re-login fails with a fatal auth error, then `withRetry`
returns exactly that error, with no further execution of the operation
(`execs = 1` counts only the failing attempt that triggered the re-login)
and irrespective of the remaining budget `m`. -/
theorem withRetry_fatalLogin_aborts (env : RetryEnv) (m i interval : Nat) (e : GoErr)
    (hfn : env.fnResult i = some GoErr.notLogged)
    (hen : env.enabled i = true)
    (hlog : env.loggedIn i = true)
    (hcan : env.cancelled i = false)
    (hl : env.loginResult i = some e)
    (hfatal : isFatalAuthErr e = true) :
    withRetryAux env (m + 2) i interval = ⟨some e, [interval], 1, 1⟩ := by
  simp [withRetryAux, retryIterStart, hfn, hen, hlog, hcan, hl, hfatal]

/-- Environment in which the operation always fails with the session-lost
error and every re-login attempt fails with `ErrAccountBlocked`. -/
def fatalLoginEnv : RetryEnv :=
  ⟨fun _ => some GoErr.notLogged, fun _ => true, fun _ => true,
   fun _ => false, fun _ => some GoErr.accountBlocked⟩

/-- Witness for C2: with a full budget of 10, a blocked-account re-login
failure after the first attempt makes `withRetry` return `ErrAccountBlocked`
after a single execution and a single re-login attempt. -/
theorem withRetry_fatalLogin_aborts_witness :
    withRetry fatalLoginEnv = ⟨some GoErr.accountBlocked, [1], 1, 1⟩ :=
  withRetry_fatalLogin_aborts fatalLoginEnv 8 0 1 GoErr.accountBlocked
    rfl rfl rfl rfl rfl rfl

theorem withRetryAux_delays_shape (env : RetryEnv) :
    ∀ (mr i interval : Nat), ∃ k, k ≤ mr - 1 ∧
      (withRetryAux env mr i interval).delays = delaysFrom interval k := by
  intro mr
  induction mr using Nat.strong_induction_on with
  | _ mr ih =>
    match mr with
    | 0 =>
      intro i interval
      refine ⟨0, by omega, ?_⟩
      cases hfn : env.fnResult i with
      | none => simp [withRetryAux, retryIterStart, hfn, delaysFrom]
      | some err =>
        by_cases hen : env.enabled i = false <;>
          by_cases hlog : env.loggedIn i = false <;>
          simp [withRetryAux, retryIterStart, hfn, hen, hlog, delaysFrom]
    | 1 =>
      intro i interval
      refine ⟨0, by omega, ?_⟩
      cases hfn : env.fnResult i with
      | none => simp [withRetryAux, retryIterStart, hfn, delaysFrom]
      | some err =>
        by_cases hen : env.enabled i = false <;>
          by_cases hlog : env.loggedIn i = false <;>
          simp [withRetryAux, retryIterStart, hfn, hen, hlog, delaysFrom]
    | m + 2 =>
      intro i interval
      cases hfn : env.fnResult i with
      | none =>
        exact ⟨0, by omega, by simp [withRetryAux, retryIterStart, hfn, delaysFrom]⟩
      | some err =>
        by_cases hen : env.enabled i = false
        · exact ⟨0, by omega, by simp [withRetryAux, retryIterStart, hfn, hen, delaysFrom]⟩
        by_cases hlog : env.loggedIn i = false
        · exact ⟨0, by omega, by simp [withRetryAux, retryIterStart, hfn, hen, hlog, delaysFrom]⟩
        by_cases hcan : env.cancelled i = true
        · exact ⟨1, by omega, by simp [withRetryAux, retryIterStart, hfn, hen, hlog, hcan, delaysFrom]⟩
        obtain ⟨k, hk, hd⟩ := ih (m + 1) (by omega) (i + 1) (min (interval * 2) 60)
        by_cases herr : err = GoErr.notLogged
        · cases hl : env.loginResult i with
          | none =>
            exact ⟨k + 1, by omega, by
              simp [withRetryAux, retryIterStart, hfn, hen, hlog, hcan, herr, hl, delaysFrom, hd]⟩
          | some e =>
            by_cases hfatal : isFatalAuthErr e = true
            · exact ⟨1, by omega, by
                simp [withRetryAux, retryIterStart, hfn, hen, hlog, hcan, herr, hl, hfatal, delaysFrom]⟩
            · exact ⟨k + 1, by omega, by
                simp [withRetryAux, retryIterStart, hfn, hen, hlog, hcan, herr, hl, hfatal, delaysFrom, hd]⟩
        · exact ⟨k + 1, by omega, by
            simp [withRetryAux, retryIterStart, hfn, hen, hlog, hcan, herr, delaysFrom, hd]⟩

theorem min_double_cap (a : Nat) : min (min a 60 * 2) 60 = min (a * 2) 60 := by
  omega

theorem delaysFrom_pow (k : Nat) : ∀ j, delaysFrom (min (2 ^ j) 60) k =
    (List.range k).map (fun n => min (2 ^ (j + n)) 60) := by
  induction k with
  | zero => intro j; simp [delaysFrom]
  | succ k ih =>
    intro j
    rw [List.range_succ_eq_map, List.map_cons, List.map_map, delaysFrom,
      min_double_cap, show (2:Nat) ^ j * 2 = 2 ^ (j + 1) from (pow_succ 2 j).symm,
      ih (j + 1)]
    refine congrArg₂ _ (by simp) (List.map_congr_left ?_)
    intro n _
    simp only [Function.comp_apply]
    rw [show j + 1 + n = j + (n + 1) by omega]

/-- C3: in every `withRetry` run, the backoff delays actually waited form an
initial segment of the sequence `n ↦ min(2^n, 60)` — that is
`1, 2, 4, 8, 16, 32, 60, 60, 60, …` — and never exceed 60. -/
theorem withRetry_backoff_powers (env : RetryEnv) :
    ∃ k, k ≤ 9 ∧
      (withRetry env).delays = (List.range k).map (fun n => min (2 ^ n) 60) ∧
      ∀ d ∈ (withRetry env).delays, d ≤ 60 := by
  obtain ⟨k, hk, hd⟩ := withRetryAux_delays_shape env 10 0 1
  have hpow := delaysFrom_pow k 0
  have h1 : (1 : Nat) = min (2 ^ 0) 60 := rfl
  refine ⟨k, by omega, ?_, ?_⟩
  · show (withRetryAux env 10 0 1).delays = _
    rw [hd, h1, hpow]
    simp
  · intro d hdm
    rw [show (withRetry env).delays = (withRetryAux env 10 0 1).delays from rfl,
      hd, h1, hpow] at hdm
    simp at hdm
    obtain ⟨n, _, hn⟩ := hdm
    omega

/-- Witness for C3: its statement applied to the all-session-lost environment,
where the delays are exactly `1, 2, 4, 8, 16, 32, 60, 60, 60`. -/
theorem withRetry_backoff_powers_witness :
    ∃ k, k ≤ 9 ∧
      (withRetry alwaysSessionLostEnv).delays =
        (List.range k).map (fun n => min (2 ^ n) 60) ∧
      ∀ d ∈ (withRetry alwaysSessionLostEnv).delays, d ≤ 60 :=
  withRetry_backoff_powers alwaysSessionLostEnv

/-- Witness for C1 at a concrete environment. -/
theorem withRetry_sessionLost_exhausts_then_terminal_witness :
    (withRetry alwaysSessionLostEnv).execs = 10 ∧
    (withRetry alwaysSessionLostEnv).execs ≤ 10 ∧
    (withRetry alwaysSessionLostEnv).relogins ≤ 10 ∧
    (withRetry alwaysSessionLostEnv).result =
      some (GoErr.failedExecuteCallbackWrap GoErr.notLogged) ∧
    (withRetry alwaysSessionLostEnv).result ≠ some GoErr.notLogged :=
  withRetry_sessionLost_exhausts_then_terminal alwaysSessionLostEnv
    (fun _ => rfl) (fun _ => rfl) (fun _ => rfl) (fun _ => rfl)
    (fun _ _ h => Option.noConfusion h)

/-! ## The request pipeline: `preRequestChecks`, `detectLoggedOut`, `pageContent` -/

/-- Query parameters (`url.Values`), embedded as an association list;
`valsGet` is `vals.Get(key)`: the first value for the key, or "" when the key
is absent. -/
abbrev Vals := List (String × String)

def valsGet (vals : Vals) (key : String) : String :=
  match vals.find? (fun p => p.1 == key) with
  | some p => p.2
  | none => ""

/-- Modelled from the spec: the page-name string constants (`OverviewPageName`,
`LogoutPageName`, the `…AjaxPageName` family, …) are declared in a source file
of the repository that is not included under src/; the claims only depend on
them being pairwise-distinct strings naming the resource classes the spec
describes. -/
def OverviewPageName : String := "overview"

def TraderOverviewPageName : String := "traderOverview"

def ResearchPageName : String := "research"

def ShipyardPageName : String := "shipyard"

def GalaxyPageName : String := "galaxy"

def AlliancePageName : String := "alliance"

def PremiumPageName : String := "premium"

def ShopPageName : String := "shop"

def RewardsPageName : String := "rewards"

def ResourceSettingsPageName : String := "resourceSettings"

def MovementPageName : String := "movement"

def HighscorePageName : String := "highscore"

def BuddiesPageName : String := "buddies"

def PreferencesPageName : String := "preferences"

def MessagesPageName : String := "messages"

def ChatPageName : String := "chat"

def DefensesPageName : String := "defenses"

def SuppliesPageName : String := "supplies"

def FacilitiesPageName : String := "facilities"

def FleetdispatchPageName : String := "fleetdispatch"

def LogoutPageName : String := "logout"

def FetchEventboxAjaxPageName : String := "fetchEventbox"

def FetchResourcesAjaxPageName : String := "fetchResources"

def GalaxyContentAjaxPageName : String := "galaxyContent"

def EventListAjaxPageName : String := "eventList"

def AjaxChatAjaxPageName : String := "ajaxChat"

def NoticesAjaxPageName : String := "notices"

def RepairlayerAjaxPageName : String := "repairlayer"

def TechtreeAjaxPageName : String := "techtree"

def PhalanxAjaxPageName : String := "phalanx"

def ShareReportOverlayAjaxPageName : String := "shareReportOverlay"

def JumpgatelayerAjaxPageName : String := "jumpgatelayer"

def FederationlayerAjaxPageName : String := "federationlayer"

def UnionchangeAjaxPageName : String := "unionchange"

def ChangenickAjaxPageName : String := "changenick"

def PlanetlayerAjaxPageName : String := "planetlayer"

def TraderlayerAjaxPageName : String := "traderlayer"

def PlanetRenameAjaxPageName : String := "planetRename"

def RightmenuAjaxPageName : String := "rightmenu"

def AllianceOverviewAjaxPageName : String := "allianceOverview"

def SupportAjaxPageName : String := "support"

def BuffActivationAjaxPageName : String := "buffActivation"

def AuctioneerAjaxPageName : String := "auctioneer"

def HighscoreContentAjaxPageName : String := "highscoreContent"

/-- `getPageName` (ogame.go:1550-1559): the effective page name is the
`component` parameter for in-game pages and certain component-only requests,
otherwise the `page` parameter. -/
def getPageName (vals : Vals) : String :=
  let page := valsGet vals "page"
  let component := valsGet vals "component"
  if page == "ingame" ||
      (page == "componentOnly" && component == FetchEventboxAjaxPageName) ||
      (page == "componentOnly" && component == EventListAjaxPageName &&
        valsGet vals "action" != "fetchEventBox")
  then component else page

/-- `IsKnowFullPage` (ogame.go:1431-1453). -/
def IsKnowFullPage (vals : Vals) : Bool :=
  let page := getPageName vals
  page == OverviewPageName ||
    page == TraderOverviewPageName ||
    page == ResearchPageName ||
    page == ShipyardPageName ||
    page == GalaxyPageName ||
    page == AlliancePageName ||
    page == PremiumPageName ||
    page == ShopPageName ||
    page == RewardsPageName ||
    page == ResourceSettingsPageName ||
    page == MovementPageName ||
    page == HighscorePageName ||
    page == BuddiesPageName ||
    page == PreferencesPageName ||
    page == MessagesPageName ||
    page == ChatPageName ||
    page == DefensesPageName ||
    page == SuppliesPageName ||
    page == FacilitiesPageName ||
    page == FleetdispatchPageName

/-- `IsAjaxPage` (ogame.go:1460-1489). -/
def IsAjaxPage (vals : Vals) : Bool :=
  let page := getPageName vals
  let ajax := valsGet vals "ajax"
  let asJson := valsGet vals "asJson"
  page == FetchEventboxAjaxPageName ||
    page == FetchResourcesAjaxPageName ||
    page == GalaxyContentAjaxPageName ||
    page == EventListAjaxPageName ||
    page == AjaxChatAjaxPageName ||
    page == NoticesAjaxPageName ||
    page == RepairlayerAjaxPageName ||
    page == TechtreeAjaxPageName ||
    page == PhalanxAjaxPageName ||
    page == ShareReportOverlayAjaxPageName ||
    page == JumpgatelayerAjaxPageName ||
    page == FederationlayerAjaxPageName ||
    page == UnionchangeAjaxPageName ||
    page == ChangenickAjaxPageName ||
    page == PlanetlayerAjaxPageName ||
    page == TraderlayerAjaxPageName ||
    page == PlanetRenameAjaxPageName ||
    page == RightmenuAjaxPageName ||
    page == AllianceOverviewAjaxPageName ||
    page == SupportAjaxPageName ||
    page == BuffActivationAjaxPageName ||
    page == AuctioneerAjaxPageName ||
    page == HighscoreContentAjaxPageName ||
    ajax == "1" ||
    asJson == "1"

/-- Content classification of one HTTP response body, recording the boolean
outcomes of the four content inspections the source performs on the raw
bytes: `isLogged` (ogame.go:1425-1428, the authenticated-session marker
regexes), `bytes.Contains(pageHTML, "eventListWrap")` (ogame.go:1581),
`canParseEventBox` (ogame.go:1491-1494) and `canParseSystemInfos`
(ogame.go:1496-1499).  The inspections themselves call external regexp/JSON
libraries and are embedded by their outcomes. -/
structure HtmlClass where
  isLogged : Bool
  hasEventListWrap : Bool
  parsesEventBox : Bool
  parsesSystemInfos : Bool
  deriving DecidableEq, Repr

/-- `detectLoggedOut` (ogame.go:1576-1584). -/
def detectLoggedOut (page : String) (vals : Vals) (h : HtmlClass) : Bool :=
  if valsGet vals "allianceId" != "" then false
  else
    (page != LogoutPageName && (IsKnowFullPage vals || page == "") &&
      !IsAjaxPage vals && !h.isLogged) ||
    (page == EventListAjaxPageName && !h.hasEventListWrap) ||
    (page == FetchEventboxAjaxPageName && !h.parsesEventBox) ||
    (page == GalaxyContentAjaxPageName && !h.parsesSystemInfos)

/-- The logged-out classification as the words of claim C4 describe it: a
known full-page (or unnamed, non-ajax, non-logout) response missing the
authenticated session marker, an event-list partial response missing its
wrapper token, or an eventbox/galaxy structured response that fails to
parse.  Written from the claim sentence, to be compared with the source's
`detectLoggedOut`. -/
def specLoggedOutC4 (page : String) (vals : Vals) (h : HtmlClass) : Bool :=
  (page != LogoutPageName && (IsKnowFullPage vals || page == "") &&
    !IsAjaxPage vals && !h.isLogged) ||
  (page == EventListAjaxPageName && !h.hasEventListWrap) ||
  (page == FetchEventboxAjaxPageName && !h.parsesEventBox) ||
  (page == GalaxyContentAjaxPageName && !h.parsesSystemInfos)

/-- Session flags and endpoint read by the pipeline: the enabled / logged-in /
connected atomics and `serverURL`. -/
structure BotState where
  isEnabled : Bool
  isLoggedIn : Bool
  serverURL : String
  isConnected : Bool
  deriving DecidableEq, Repr

/-- `preRequestChecks` (ogame.go:1501-1512). -/
def preRequestChecks (b : BotState) : Option GoErr :=
  if b.isEnabled = false then some .botInactive
  else if b.isLoggedIn = false then some .botLoggedOut
  else if b.serverURL = "" then some .serverURLEmpty
  else none

/-- One execution of the callback built in `pageContent` (ogame.go:1628-1646),
given the outcome of `execRequest`: on network error propagate it; otherwise,
if `detectLoggedOut` classifies the body as logged out, clear the connected
atomic and return `ErrNotLogged` instead of the bytes; otherwise return the
bytes. -/
def pageContentStep (b : BotState) (page : String) (vals : Vals)
    (netResult : Except GoErr HtmlClass) : BotState × Except GoErr HtmlClass :=
  match netResult with
  | .error e => (b, .error e)
  | .ok h =>
    if detectLoggedOut page vals h then
      ({b with isConnected := false}, .error GoErr.notLogged)
    else (b, .ok h)

/-- Environment of one full `pageContent` call: the outcome of the i-th
`execRequest`, plus the retry-wrapper environment components. -/
structure NetEnv where
  response : Nat → Except GoErr HtmlClass
  enabled : Nat → Bool
  loggedIn : Nat → Bool
  cancelled : Nat → Bool
  loginResult : Nat → Option GoErr

/-- Error outcome of the `clb` closure of `pageContent` (ogame.go:1628-1646)
on one `execRequest` outcome. -/
def clbResult (page : String) (vals : Vals) (resp : Except GoErr HtmlClass) :
    Option GoErr :=
  match resp with
  | .error e => some e
  | .ok h => if detectLoggedOut page vals h then some GoErr.notLogged else none

/-- The retry environment induced by running `clb` against the network
environment. -/
def toRetryEnv (page : String) (vals : Vals) (net : NetEnv) : RetryEnv :=
  ⟨fun i => clbResult page vals (net.response i),
   net.enabled, net.loggedIn, net.cancelled, net.loginResult⟩

/-- `getPageContent`/`pageContent` (ogame.go:1604-1606, 1612-1667) restricted
to its session logic: precondition check, then `clb` under `withRetry`; on
overall success the bytes of the last (successful) attempt are returned. -/
def getPageContentRun (b : BotState) (vals : Vals) (net : NetEnv) :
    Except GoErr HtmlClass :=
  match preRequestChecks b with
  | some e => .error e
  | none =>
    let page := getPageName vals
    let run := withRetry (toRetryEnv page vals net)
    match run.result with
    | some e => .error e
    | none =>
      match net.response (run.execs - 1) with
      | .ok h => .ok h
      | .error e => .error e

/-- Number of network requests performed by one `pageContent` call: none when
the precondition check fails, otherwise one per executed attempt. -/
def pageContentNetworkCalls (b : BotState) (vals : Vals) (net : NetEnv) : Nat :=
  match preRequestChecks b with
  | some _ => 0
  | none => (withRetry (toRetryEnv (getPageName vals) vals net)).execs

/-- `getPageJSON` (ogame.go:1771-1780): fetch via `getPageContent`, propagate
its error; otherwise unmarshal the body into the caller's target value and
return `ErrNotLogged` when unmarshalling fails.  `unmarshalOk` is the outcome
of `json.Unmarshal` on the body for the caller's target type. -/
def getPageJSONRun (b : BotState) (vals : Vals) (net : NetEnv)
    (unmarshalOk : HtmlClass → Bool) : Option GoErr :=
  match getPageContentRun b vals net with
  | .error e => some e
  | .ok h => if unmarshalOk h then none else some GoErr.notLogged

/-- The source's classifier equals the claim-side classifier guarded by the
`allianceId` exemption. -/
theorem detectLoggedOut_eq_guarded_spec (page : String) (vals : Vals)
    (h : HtmlClass) :
    detectLoggedOut page vals h =
      ((valsGet vals "allianceId" == "") && specLoggedOutC4 page vals h) := by
  by_cases hx : valsGet vals "allianceId" = ""
  · simp [detectLoggedOut, specLoggedOutC4, hx]
  · simp [detectLoggedOut, specLoggedOutC4, hx]

/-- C10: a request carrying a non-empty `allianceId` query value is never
classified as logged out, whatever the response content; the pipeline step
returns the bytes unchanged. -/
theorem detectLoggedOut_allianceId_never (b : BotState) (page : String)
    (vals : Vals) (h : HtmlClass)
    (ha : valsGet vals "allianceId" ≠ "") :
    detectLoggedOut page vals h = false ∧
    pageContentStep b page vals (Except.ok h) = (b, Except.ok h) := by
  have hd : detectLoggedOut page vals h = false := by
    simp [detectLoggedOut, ha]
  exact ⟨hd, by simp [pageContentStep, hd]⟩

/-- Query parameters of an alliance-info request. -/
def allianceVals : Vals := [("allianceId", "1")]

/-- A response body carrying none of the recognized content markers. -/
def unloggedHtml : HtmlClass := ⟨false, false, false, false⟩

/-- An enabled, logged-in, connected bot with a configured server endpoint. -/
def okBot : BotState := ⟨true, true, "https://s1-en.example", true⟩

/-- Witness for C10 at the alliance-info request with a marker-free body. -/
theorem detectLoggedOut_allianceId_never_witness :
    detectLoggedOut (getPageName allianceVals) allianceVals unloggedHtml = false ∧
    pageContentStep okBot (getPageName allianceVals) allianceVals
      (Except.ok unloggedHtml) = (okBot, Except.ok unloggedHtml) :=
  detectLoggedOut_allianceId_never okBot (getPageName allianceVals)
    allianceVals unloggedHtml (by decide)

/-- C4 counterexample: an alliance-info request whose response lacks every
authenticated marker matches the classification exactly as C4's sentence
describes it, yet the pipeline step returns the bytes and leaves the
connected flag set — the sentence omits the `allianceId` exemption of
ogame.go:1577-1579. -/
theorem specLoggedOutC4_mismatch_alliance :
    specLoggedOutC4 (getPageName allianceVals) allianceVals unloggedHtml = true ∧
    pageContentStep okBot (getPageName allianceVals) allianceVals
      (Except.ok unloggedHtml) = (okBot, Except.ok unloggedHtml) ∧
    okBot.isConnected = true := by
  refine ⟨by decide, rfl, rfl⟩

/-- C4 amended: for a request without an `allianceId` query value, the step
clears the connected flag and returns `ErrNotLogged` exactly when the
response matches the classification described by the claim; in every other
case (classification false, or `allianceId` present) the bytes are
returned with the state unchanged. -/
theorem pageContentStep_classifies (b : BotState) (vals : Vals) (h : HtmlClass) :
    (valsGet vals "allianceId" = "" →
      specLoggedOutC4 (getPageName vals) vals h = true →
      pageContentStep b (getPageName vals) vals (Except.ok h) =
        ({b with isConnected := false}, Except.error GoErr.notLogged)) ∧
    ((valsGet vals "allianceId" ≠ "" ∨
        specLoggedOutC4 (getPageName vals) vals h = false) →
      pageContentStep b (getPageName vals) vals (Except.ok h) =
        (b, Except.ok h)) := by
  have hg := detectLoggedOut_eq_guarded_spec (getPageName vals) vals h
  constructor
  · intro hx hs
    have hd : detectLoggedOut (getPageName vals) vals h = true := by
      rw [hg, hx, hs]
      rfl
    simp [pageContentStep, hd]
  · intro hor
    have hd : detectLoggedOut (getPageName vals) vals h = false := by
      rcases hor with hx | hs
      · rw [hg]
        simp [hx]
      · rw [hg, hs]
        simp
    simp [pageContentStep, hd]

/-- Witness for the amended C4: an unnamed, non-ajax request with a
marker-free body is classified as logged out, the connected flag is cleared
and `ErrNotLogged` is returned. -/
theorem pageContentStep_classifies_witness :
    pageContentStep okBot (getPageName []) [] (Except.ok unloggedHtml) =
      ({okBot with isConnected := false}, Except.error GoErr.notLogged) :=
  (pageContentStep_classifies okBot [] unloggedHtml).1 rfl rfl

/-- C6: the precondition check returns `ErrBotInactive` for a disabled bot,
`ErrBotLoggedOut` for an enabled but not logged-in bot, and the distinct
empty-endpoint error for an unset `serverURL`, in that order; in all three
cases `pageContent` performs no network request, and the three error values
are pairwise distinct. -/
theorem pageContent_precondition_errors (b : BotState) (vals : Vals)
    (net : NetEnv) :
    (b.isEnabled = false →
      getPageContentRun b vals net = .error GoErr.botInactive ∧
      pageContentNetworkCalls b vals net = 0) ∧
    (b.isEnabled = true → b.isLoggedIn = false →
      getPageContentRun b vals net = .error GoErr.botLoggedOut ∧
      pageContentNetworkCalls b vals net = 0) ∧
    (b.isEnabled = true → b.isLoggedIn = true → b.serverURL = "" →
      getPageContentRun b vals net = .error GoErr.serverURLEmpty ∧
      pageContentNetworkCalls b vals net = 0) ∧
    GoErr.botInactive ≠ GoErr.botLoggedOut ∧
    GoErr.botInactive ≠ GoErr.serverURLEmpty ∧
    GoErr.botLoggedOut ≠ GoErr.serverURLEmpty := by
  refine ⟨?_, ?_, ?_, by decide, by decide, by decide⟩ <;> intros <;>
    simp_all [getPageContentRun, pageContentNetworkCalls, preRequestChecks]

/-- A disabled bot. -/
def disabledBot : BotState := ⟨false, false, "", false⟩

/-- A network environment that would always answer with a fully marked body. -/
def okNet : NetEnv :=
  ⟨fun _ => .ok ⟨true, true, true, true⟩, fun _ => true, fun _ => true,
   fun _ => false, fun _ => none⟩

/-- Witness for C6: a disabled bot gets `ErrBotInactive` with zero network
calls. -/
theorem pageContent_precondition_errors_witness :
    getPageContentRun disabledBot [] okNet = .error GoErr.botInactive ∧
    pageContentNetworkCalls disabledBot [] okNet = 0 :=
  (pageContent_precondition_errors disabledBot [] okNet).1 rfl

/-- C5 amended: the retry wrapper itself never returns the raw `ErrNotLogged`
value: every error it returns is `ErrBotInactive`, `ErrBotLoggedOut`, a fatal
auth error from a failed re-login, or the last failure wrapped with the
terminal `ErrFailedExecuteCallback` marker. -/
theorem withRetry_never_returns_raw_notLogged (env : RetryEnv) :
    (withRetry env).result ≠ some GoErr.notLogged := by
  suffices h : ∀ (mr i interval : Nat),
      (withRetryAux env mr i interval).result ≠ some GoErr.notLogged from
    h 10 0 1
  intro mr
  induction mr using Nat.strong_induction_on with
  | _ mr ih =>
    match mr with
    | 0 =>
      intro i interval
      cases hfn : env.fnResult i with
      | none => simp [withRetryAux, retryIterStart, hfn]
      | some err =>
        by_cases hen : env.enabled i = false <;>
          by_cases hlog : env.loggedIn i = false <;>
          simp [withRetryAux, retryIterStart, hfn, hen, hlog]
    | 1 =>
      intro i interval
      cases hfn : env.fnResult i with
      | none => simp [withRetryAux, retryIterStart, hfn]
      | some err =>
        by_cases hen : env.enabled i = false <;>
          by_cases hlog : env.loggedIn i = false <;>
          simp [withRetryAux, retryIterStart, hfn, hen, hlog]
    | m + 2 =>
      intro i interval
      cases hfn : env.fnResult i with
      | none => simp [withRetryAux, retryIterStart, hfn]
      | some err =>
        by_cases hen : env.enabled i = false
        · simp [withRetryAux, retryIterStart, hfn, hen]
        by_cases hlog : env.loggedIn i = false
        · simp [withRetryAux, retryIterStart, hfn, hen, hlog]
        by_cases hcan : env.cancelled i = true
        · simp [withRetryAux, retryIterStart, hfn, hen, hlog, hcan]
        have hrec := ih (m + 1) (by omega) (i + 1) (min (interval * 2) 60)
        by_cases herr : err = GoErr.notLogged
        · cases hl : env.loginResult i with
          | none =>
            simp [withRetryAux, retryIterStart, hfn, hen, hlog, hcan, herr, hl, hrec]
          | some e =>
            by_cases hfatal : isFatalAuthErr e = true
            · simp only [withRetryAux, retryIterStart, hfn, hen, hlog, hcan, herr,
                hl, hfatal]
              intro hco
              simp at hco
              subst hco
              simp [isFatalAuthErr] at hfatal
            · simp [withRetryAux, retryIterStart, hfn, hen, hlog, hcan, herr, hl,
                hfatal, hrec]
        · simp [withRetryAux, retryIterStart, hfn, hen, hlog, hcan, herr, hrec]

/-- Witness for the amended C5. -/
theorem withRetry_never_returns_raw_notLogged_witness :
    (withRetry alwaysSessionLostEnv).result ≠ some GoErr.notLogged :=
  withRetry_never_returns_raw_notLogged alwaysSessionLostEnv

/-- C5 counterexample: `getPageJSON` returns the raw `ErrNotLogged` value to
its caller although the fetch succeeded on the very first attempt — the retry
budget was not exhausted — because a successful fetch whose body fails JSON
unmarshalling is mapped to `ErrNotLogged` at ogame.go:1776-1778. -/
theorem getPageJSON_notLogged_reaches_caller :
    getPageJSONRun okBot [] okNet (fun _ => false) = some GoErr.notLogged ∧
    (withRetry (toRetryEnv (getPageName []) [] okNet)).result = none ∧
    (withRetry (toRetryEnv (getPageName []) [] okNet)).execs = 1 :=
  ⟨rfl, rfl, rfl⟩

/-! ## Lifecycle state bookkeeping: `botLock` / `botUnlock` / observers -/

/-- State read and written by `botLock` / `botUnlock` (ogame.go:4147-4161):
the `lockedAtom` flag, the current actor (`b.state`), and the registered
state-change observers (`b.stateChangeCallbacks`), identified by opaque
numeric tags.  The `sync.Mutex` acquired first in `botLock` and released
first in `botUnlock` enforces that, in a well-nested sequential execution, a
completed `botLock` body starts from `lockedAtom = 0` and a completed
`botUnlock` body from `lockedAtom = 1`; the compare-and-swap guards are kept
in the embedding. -/
structure LockBot where
  lockedAtom : Bool
  state : String
  stateChangeCallbacks : List Nat
  deriving DecidableEq, Repr

/-- `stateChanged` (ogame.go:4141-4145): invoke every registered observer, in
registration order, with `(locked, actor)`.  Invocations are returned as an
explicit event list. -/
def stateChanged (b : LockBot) (locked : Bool) (actor : String) :
    List (Nat × Bool × String) :=
  b.stateChangeCallbacks.map (fun c => (c, locked, actor))

/-- `botLock` (ogame.go:4147-4153) after the mutex acquisition: when the CAS
`0 → 1` succeeds, set the actor and notify the observers. -/
def botLock (b : LockBot) (lockedBy : String) :
    LockBot × List (Nat × Bool × String) :=
  if b.lockedAtom = false then
    let b2 := {b with lockedAtom := true, state := lockedBy}
    (b2, stateChanged b2 true lockedBy)
  else (b, [])

/-- `botUnlock` (ogame.go:4155-4161) after the mutex release: when the CAS
`1 → 0` succeeds, set the actor and notify the observers. -/
def botUnlock (b : LockBot) (unlockedBy : String) :
    LockBot × List (Nat × Bool × String) :=
  if b.lockedAtom = true then
    let b2 := {b with lockedAtom := false, state := unlockedBy}
    (b2, stateChanged b2 false unlockedBy)
  else (b, [])

/-- `OnStateChange` (ogame.go:4310-4312): append an observer to the registry. -/
def OnStateChange (b : LockBot) (clb : Nat) : LockBot :=
  {b with stateChangeCallbacks := b.stateChangeCallbacks ++ [clb]}

/-- C7: a completed `Lock(actor)` call — which, by the mutex discipline,
starts from an unlocked flag — sets the locked flag, records the actor, and
invokes every registered observer exactly once, in registration order, with
`(true, actor)`; symmetrically `Unlock(actor)` clears the flag, records the
actor, and notifies every observer with `(false, actor)`. -/
theorem botLock_botUnlock_notify (b : LockBot) (actor : String) :
    (b.lockedAtom = false →
      (botLock b actor).1.lockedAtom = true ∧
      (botLock b actor).1.state = actor ∧
      (botLock b actor).2 = b.stateChangeCallbacks.map (fun c => (c, true, actor))) ∧
    (b.lockedAtom = true →
      (botUnlock b actor).1.lockedAtom = false ∧
      (botUnlock b actor).1.state = actor ∧
      (botUnlock b actor).2 = b.stateChangeCallbacks.map (fun c => (c, false, actor))) := by
  constructor
  · intro hu
    simp [botLock, botUnlock, stateChanged, hu]
  · intro hl
    simp [botLock, botUnlock, stateChanged, hl]

/-- Witness for C7: locking an unlocked bot with two registered observers
notifies both with `(true, actor)`, and then unlocking notifies both with
`(false, actor)`. -/
theorem botLock_botUnlock_notify_witness :
    ((botLock ⟨false, "", [7, 8]⟩ "worker").1.lockedAtom = true ∧
     (botLock ⟨false, "", [7, 8]⟩ "worker").1.state = "worker" ∧
     (botLock ⟨false, "", [7, 8]⟩ "worker").2 =
       [(7, true, "worker"), (8, true, "worker")]) ∧
    ((botUnlock ⟨true, "worker", [7, 8]⟩ "worker").1.lockedAtom = false ∧
     (botUnlock ⟨true, "worker", [7, 8]⟩ "worker").1.state = "worker" ∧
     (botUnlock ⟨true, "worker", [7, 8]⟩ "worker").2 =
       [(7, false, "worker"), (8, false, "worker")]) :=
  ⟨(botLock_botUnlock_notify ⟨false, "", [7, 8]⟩ "worker").1 rfl,
   (botLock_botUnlock_notify ⟨true, "worker", [7, 8]⟩ "worker").2 rfl⟩

/-! ## Realtime stream client: the legacy-dialect reader of `connectChatV7` -/

/-- JSON values as decoded by `encoding/json` into `map[string]any` /
`[]any` / `string` / `float64` / `bool` / `nil`.  Numeric leaves are embedded
as integers: every payload the claims quantify over carries integral numeric
fields, on which Go's `float64`-to-`int64` conversions are identities. -/
inductive JVal where
  | jnull
  | jbool (b : Bool)
  | jnum (n : Int)
  | jstr (s : String)
  | jarr (xs : List JVal)
  | jobj (fields : List (String × JVal))

/-- Go map lookup `m[k]` on a decoded JSON object: the value, or nil
(`none`) when the key is absent. -/
def jfield (fields : List (String × JVal)) (k : String) : Option JVal :=
  (fields.find? (fun p => p.1 == k)).map (fun p => p.2)

/-- `doCastF64` (ogame.go:1315-1320) composed with a map lookup: the numeric
value, or 0 when the key is absent or the value is not a number. -/
def doCastF64 : Option JVal → Int
  | some (.jnum n) => n
  | _ => 0

/-- `doCastStr` (ogame.go:1322-1327) composed with a map lookup. -/
def doCastStr : Option JVal → String
  | some (.jstr s) => s
  | _ => ""

/-- Accumulating decimal read: `some` of the value when every character is a
digit, `none` otherwise. -/
def digitsVal : List Char → Nat → Option Nat
  | [], acc => some acc
  | c :: rest, acc =>
    if c.isDigit then digitsVal rest (acc * 10 + (c.toNat - 48)) else none

/-- `strconv.ParseInt(s, 10, 64)` as an `Option`: an optional sign followed
by at least one digit (the int64 range is not modelled; the payloads the
claims quantify over are far below it). -/
def strToIntQ (s : String) : Option Int :=
  match s.data with
  | [] => none
  | '-' :: rest =>
    if rest.isEmpty then none else (digitsVal rest 0).map (fun n => -(n : Int))
  | '+' :: rest =>
    if rest.isEmpty then none else (digitsVal rest 0).map (fun n => (n : Int))
  | cs => (digitsVal cs 0).map (fun n => (n : Int))

/-- Modelled from the spec: `DoParseI64` (declared in the repository's utils
file, which is not under src/) parses a decimal signed-integer string,
yielding 0 when parsing fails. -/
def DoParseI64 (s : String) : Int :=
  match strToIntQ s with
  | some n => n
  | none => 0

/-- Modelled from the spec: `FI64` (declared in the repository's utils file,
which is not under src/) formats an int64 in decimal. -/
def FI64 (n : Int) : String :=
  toString n

/-- Substring test on character lists. -/
def listIsInfixOf (pat : List Char) : List Char → Bool
  | [] => pat.isEmpty
  | c :: rest => pat.isPrefixOf (c :: rest) || listIsInfixOf pat rest

/-- `strings.Contains(s, pat)`. -/
def strContains (s pat : String) : Bool :=
  listIsInfixOf pat.data s.data

/-- Prefix test on the underlying character lists. -/
def strIsPrefixOf (pfx s : String) : Bool :=
  pfx.data.isPrefixOf s.data

/-- `bytes.TrimPrefix` / `strings.TrimPrefix`: drop the prefix when present,
otherwise return the string unchanged. -/
def trimPfxStr (pfx s : String) : String :=
  if strIsPrefixOf pfx s then ⟨s.data.drop pfx.data.length⟩ else s

/-- `AuctioneerNewBid` event payload, with the nested `Player` struct
flattened into the three fields the source sets (ID, Name, Link). -/
structure AuctioneerNewBid where
  Sum : Int
  Price : Int
  Bids : Int
  AuctionID : Int
  PlayerID : Int
  PlayerName : String
  PlayerLink : String
  deriving DecidableEq, Repr

/-- Construction of an `AuctioneerNewBid` from the decoded first argument of
a "new bid" payload (ogame.go:1228-1241 and identically 1075-1088): `sum`,
`price`, `bids` via `doCastF64`, `auctionId` via `DoParseI64 ∘ doCastStr`,
and the player fields only when `player` is an object. -/
def newBidOfFields (firstArg : List (String × JVal)) : AuctioneerNewBid :=
  let auctionID := DoParseI64 (doCastStr (jfield firstArg "auctionId"))
  let base : AuctioneerNewBid :=
    ⟨doCastF64 (jfield firstArg "sum"), doCastF64 (jfield firstArg "price"),
     doCastF64 (jfield firstArg "bids"), auctionID, 0, "", ""⟩
  match jfield firstArg "player" with
  | some (.jobj player) =>
    {base with
      PlayerID := doCastF64 (jfield player "id"),
      PlayerName := doCastStr (jfield player "name"),
      PlayerLink := doCastStr (jfield player "link")}
  | _ => base

/-- The tagged union dispatched to auctioneer observers.  `raw` is the
initial `var pck any = msg` string kept when no arm rebuilds it; the
`…Html` constructors keep the textual argument whose numeric content the
source extracts with goquery/regexp (external HTML parsing, embedded by the
text that determines it). -/
inductive AuctioneerPck where
  | raw (s : String)
  | newBid (b : AuctioneerNewBid)
  | timeRemainingHtml (arg : String)
  | nextAuctionHtml (arg : String)
  | newAuctionHtml (auctionID : Int) (info : Option String)
  | auctionFinished (sum bids playerID : Int) (playerName playerLink : String)
  deriving DecidableEq, Repr

/-- Shared arm analysis of an auctioneer event name and first argument.  The
two dialect readers contain line-for-line identical copies of this logic
(ogame.go:1074-1133 for the current dialect, 1227-1286 for the legacy one);
`fallback` is the raw string `pck` keeps when an arm does not rebuild it. -/
def auctioneerPckOfNameArg (name : String) (arg : JVal) (fallback : String) :
    AuctioneerPck :=
  if name == "new bid" then
    match arg with
    | .jobj firstArg => .newBid (newBidOfFields firstArg)
    | _ => .raw fallback
  else if name == "timeLeft" then
    match arg with
    | .jstr s =>
      if strContains s "color:" then .timeRemainingHtml s
      else if strContains s "nextAuction" then .nextAuctionHtml s
      else .raw fallback
    | _ => .raw fallback
  else if name == "new auction" then
    match arg with
    | .jobj firstArg =>
      .newAuctionHtml (doCastF64 (jfield firstArg "auctionId"))
        (match jfield firstArg "info" with
         | some (.jstr s) => some s
         | _ => none)
    | _ => .raw fallback
  else if name == "auction finished" then
    match arg with
    | .jobj firstArg =>
      match jfield firstArg "player" with
      | some (.jobj player) =>
        .auctionFinished (doCastF64 (jfield firstArg "sum"))
          (doCastF64 (jfield firstArg "bids"))
          (doCastF64 (jfield player "id"))
          (doCastStr (jfield player "name"))
          (doCastStr (jfield player "link"))
      | _ =>
        .auctionFinished (doCastF64 (jfield firstArg "sum"))
          (doCastF64 (jfield firstArg "bids")) 0 "" ""
    | _ => .raw fallback
  else .raw fallback

/-- Legacy-dialect auctioneer frame handling (ogame.go:1221-1288): trim the
`5::/auctioneer:` prefix, unmarshal into an object (`jdec` is the outcome of
`json.Unmarshal`), and rebuild `pck` when `args` is a non-empty array and
`name` is a string. -/
def v7AuctioneerPck (jdec : String → Option JVal) (rawMsg : String) :
    AuctioneerPck :=
  let msg := trimPfxStr "5::/auctioneer:" rawMsg
  match jdec msg with
  | some (.jobj out) =>
    match jfield out "args" with
    | some (.jarr (arg0 :: _)) =>
      match jfield out "name" with
      | some (.jstr name) => auctioneerPckOfNameArg name arg0 msg
      | _ => .raw msg
    | _ => .raw msg
  | _ => .raw msg

/-- Current-dialect auctioneer payload handling (ogame.go:1063-1137), from
the payload `msg` already split off the frame (`strings.SplitN(buf, ",", 2)[1]`):
unmarshal into an array; an empty (or undecodable) array is logged and
dispatches nothing (`none`); a first element that is not a string leaves the
raw payload as the event; a one-element array whose head is a string would
make the source panic on `out[1]` and is embedded as `none`. -/
def v8AuctioneerPck (jdec : String → Option JVal) (msg : String) :
    Option AuctioneerPck :=
  match jdec msg with
  | some (.jarr (x :: rest)) =>
    match x with
    | .jstr name =>
      match rest with
      | arg :: _ => some (auctioneerPckOfNameArg name arg msg)
      | [] => none
    | _ => some (.raw msg)
  | _ => none

/-- `regexp \d+` followed by a literal pattern, unanchored: some digit is
immediately followed by the pattern. -/
def listHasDigitThen (pat : List Char) : List Char → Bool
  | [] => false
  | c :: rest => (c.isDigit && pat.isPrefixOf rest) || listHasDigitThen pat rest

/-- A maximal digit run (at least one digit) followed by `suffix`. -/
def digitRunThen (suffix : List Char) (cs : List Char) : Bool :=
  (!(cs.takeWhile Char.isDigit).isEmpty) &&
    suffix.isPrefixOf (cs.dropWhile Char.isDigit)

/-- `regexp 6::/chat:\d+` followed by `suffix`, unanchored. -/
def listHasChatAck (suffix : List Char) : List Char → Bool
  | [] => false
  | c :: rest =>
    ("6::/chat:".data.isPrefixOf (c :: rest) &&
      digitRunThen suffix ((c :: rest).drop 9)) ||
    listHasChatAck suffix rest

/-- Logical event emitted by one legacy reader iteration, besides writes:
an auctioneer dispatch, a chat payload (whose `ChatPayload` JSON decoding and
per-message fan-out is external to the claims), or an unknown frame that is
only logged. -/
inductive V7Event where
  | auctioneer (pck : AuctioneerPck)
  | chatPayload (raw : String)
  | unknown (raw : String)

/-- Result of one legacy reader iteration: the updated
`sessionChatCounter`, the frames written to the websocket, and the logical
event. -/
structure V7Step where
  counter : Int
  writes : List String
  event : Option V7Event

/-- One iteration of the legacy-dialect reader loop (ogame.go:1205-1311) on a
received frame `msg`: Go's branch ladder in source order.  `jdec` stands for
`json.Unmarshal` into `map[string]any`; `sess` is `b.ogameSession`. -/
def connectChatV7Step (jdec : String → Option JVal) (sess : String)
    (counter : Int) (msg : String) : V7Step :=
  if msg == "1::" then
    ⟨counter, ["1::/chat", "1::/auctioneer"], none⟩
  else if msg == "1::/chat" then
    ⟨counter + 1,
     ["5:" ++ FI64 counter ++
       "+:/chat:\x7b\"name\":\"authorize\",\"args\":[\"" ++ sess ++ "\"]\x7d"],
     none⟩
  else if msg == "2::" then
    ⟨counter, ["2::"], none⟩
  else if listHasDigitThen "::/auctioneer".data msg.data then
    ⟨counter, [], some (.auctioneer (v7AuctioneerPck jdec msg))⟩
  else if listHasChatAck "+[true]".data msg.data then
    ⟨counter, [], none⟩
  else if listHasChatAck "+[false]".data msg.data then
    ⟨counter, [], none⟩
  else if strIsPrefixOf "5::/chat:" msg then
    ⟨counter, [], some (.chatPayload (trimPfxStr "5::/chat:" msg))⟩
  else
    ⟨counter, [], some (.unknown msg)⟩

/-- The reader processing a sequence of inbound frames, returning the frames
written to the connection for each inbound frame. -/
def connectChatV7Run (jdec : String → Option JVal) (sess : String) :
    Int → List String → List (List String)
  | _, [] => []
  | counter, msg :: rest =>
    let st := connectChatV7Step jdec sess counter msg
    st.writes :: connectChatV7Run jdec sess st.counter rest

/-- A chat-authorize frame: one whose body carries the `"authorize"` token. -/
def isChatAuthorizeFrame (w : String) : Bool :=
  listIsInfixOf "\"authorize\"".data w.data

/-- The dispatch loop `for _, clb := range b.auctioneerCallbacks { clb(pck) }`
(ogame.go:1289-1291, 1135-1137): one invocation per registered observer. -/
def dispatchAuctioneer (callbacks : List Nat) (pck : AuctioneerPck) :
    List (Nat × AuctioneerPck) :=
  callbacks.map (fun c => (c, pck))

/-- C8: feeding the legacy-dialect reader the inbound sequence `1::`,
`1::/chat`, `1::/auctioneer` writes the two topic-subscription frames (and
nothing else) on `1::`, exactly one chat-authorize frame on `1::/chat`, and
nothing on `1::/auctioneer` — one authorize frame in total, sent after
`1::/chat` was received. -/
theorem legacy_sequence_single_authorize (jdec : String → Option JVal) :
    connectChatV7Run jdec "SESSION" 1 ["1::", "1::/chat", "1::/auctioneer"] =
      [["1::/chat", "1::/auctioneer"],
       ["5:1+:/chat:\x7b\"name\":\"authorize\",\"args\":[\"SESSION\"]\x7d"],
       []] ∧
    (connectChatV7Run jdec "SESSION" 1 ["1::", "1::/chat", "1::/auctioneer"]).map
      (fun ws => (ws.filter isChatAuthorizeFrame).length) = [0, 1, 0] := by
  have h : connectChatV7Run jdec "SESSION" 1 ["1::", "1::/chat", "1::/auctioneer"] =
      [["1::/chat", "1::/auctioneer"],
       ["5:1+:/chat:\x7b\"name\":\"authorize\",\"args\":[\"SESSION\"]\x7d"],
       []] := rfl
  refine ⟨h, ?_⟩
  rw [h]
  decide

/-- Witness for C8 at a concrete JSON decoder. -/
theorem legacy_sequence_single_authorize_witness :
    connectChatV7Run (fun _ => none) "SESSION" 1 ["1::", "1::/chat", "1::/auctioneer"] =
      [["1::/chat", "1::/auctioneer"],
       ["5:1+:/chat:\x7b\"name\":\"authorize\",\"args\":[\"SESSION\"]\x7d"],
       []] ∧
    (connectChatV7Run (fun _ => none) "SESSION" 1
        ["1::", "1::/chat", "1::/auctioneer"]).map
      (fun ws => (ws.filter isChatAuthorizeFrame).length) = [0, 1, 0] :=
  legacy_sequence_single_authorize (fun _ => none)

/-- Decoded fields of a well-formed "new bid" first argument carrying the
given payload values (`auctionId` arrives as a decimal string). -/
def newBidFields (sum price bids : Int) (aidStr : String) (pid : Int)
    (pname plink : String) : List (String × JVal) :=
  [("player", .jobj [("id", .jnum pid), ("name", .jstr pname), ("link", .jstr plink)]),
   ("sum", .jnum sum), ("price", .jnum price), ("bids", .jnum bids),
   ("auctionId", .jstr aidStr)]

/-- C9: an inbound auctioneer frame carrying a well-formed "new bid" payload
produces, in either dialect, the single `AuctioneerNewBid` event whose
`Sum`, `Price`, `Bids`, `AuctionID` and `Player` fields equal the payload's
values, writes nothing back, and the dispatch loop delivers that one event
exactly once to each registered observer, in registration order. -/
theorem auctioneer_newBid_dispatch (jdec : String → Option JVal)
    (callbacks : List Nat) (sess : String) (counter : Int) (msg msg8 : String)
    (sum price bids pid aid : Int) (aidStr pname plink : String)
    (hnot1 : msg ≠ "1::") (hnot2 : msg ≠ "1::/chat") (hnot3 : msg ≠ "2::")
    (hmsg : listHasDigitThen "::/auctioneer".data msg.data = true)
    (hdec : jdec (trimPfxStr "5::/auctioneer:" msg) =
      some (JVal.jobj [("name", JVal.jstr "new bid"),
        ("args", JVal.jarr
          [JVal.jobj (newBidFields sum price bids aidStr pid pname plink)])]))
    (hdec8 : jdec msg8 = some (JVal.jarr [JVal.jstr "new bid",
      JVal.jobj (newBidFields sum price bids aidStr pid pname plink)]))
    (haid : strToIntQ aidStr = some aid) :
    (connectChatV7Step jdec sess counter msg).event =
      some (V7Event.auctioneer (AuctioneerPck.newBid
        ⟨sum, price, bids, aid, pid, pname, plink⟩)) ∧
    (connectChatV7Step jdec sess counter msg).writes = [] ∧
    v8AuctioneerPck jdec msg8 =
      some (AuctioneerPck.newBid ⟨sum, price, bids, aid, pid, pname, plink⟩) ∧
    (dispatchAuctioneer callbacks
        (AuctioneerPck.newBid ⟨sum, price, bids, aid, pid, pname, plink⟩)).map
      Prod.fst = callbacks ∧
    ∀ p ∈ dispatchAuctioneer callbacks
        (AuctioneerPck.newBid ⟨sum, price, bids, aid, pid, pname, plink⟩),
      p.2 = AuctioneerPck.newBid ⟨sum, price, bids, aid, pid, pname, plink⟩ := by
  have hA : DoParseI64 aidStr = aid := by simp [DoParseI64, haid]
  have hb1 : (msg == "1::") = false := beq_eq_false_iff_ne.mpr hnot1
  have hb2 : (msg == "1::/chat") = false := beq_eq_false_iff_ne.mpr hnot2
  have hb3 : (msg == "2::") = false := beq_eq_false_iff_ne.mpr hnot3
  have hpck : v7AuctioneerPck jdec msg =
      AuctioneerPck.newBid ⟨sum, price, bids, aid, pid, pname, plink⟩ := by
    rw [← hA]
    simp only [v7AuctioneerPck, hdec]
    rfl
  have hstep : connectChatV7Step jdec sess counter msg =
      ⟨counter, [], some (.auctioneer (v7AuctioneerPck jdec msg))⟩ := by
    simp [connectChatV7Step, hb1, hb2, hb3, hmsg]
  refine ⟨?_, ?_, ?_, ?_, ?_⟩
  · rw [hstep, hpck]
  · rw [hstep]
  · rw [← hA]
    simp only [v8AuctioneerPck, hdec8]
    rfl
  · simp only [dispatchAuctioneer, List.map_map]
    exact List.map_id' callbacks
  · intro p hp
    simp only [dispatchAuctioneer, List.mem_map] at hp
    obtain ⟨c, -, hpe⟩ := hp
    rw [← hpe]

/-- Field values of the sample "new bid" payload (the one documented at
ogame.go:1219). -/
def newBidPayloadFields : List (String × JVal) :=
  newBidFields 5000 6000 5 "42894" 219657 "Payback" "link1"

/-- A concrete JSON-decode outcome: the legacy-framed body decodes to the
object form, the current-dialect body to the array form. -/
def newBidDecoder : String → Option JVal := fun s =>
  if s == "NB" then
    some (.jobj [("name", .jstr "new bid"), ("args", .jarr [.jobj newBidPayloadFields])])
  else if s == "M8" then
    some (.jarr [.jstr "new bid", .jobj newBidPayloadFields])
  else none

/-- Witness for C9 at the sample payload. -/
theorem auctioneer_newBid_dispatch_witness :
    (connectChatV7Step newBidDecoder "S" 1 "5::/auctioneer:NB").event =
      some (V7Event.auctioneer (AuctioneerPck.newBid
        ⟨5000, 6000, 5, 42894, 219657, "Payback", "link1"⟩)) ∧
    (connectChatV7Step newBidDecoder "S" 1 "5::/auctioneer:NB").writes = [] ∧
    v8AuctioneerPck newBidDecoder "M8" =
      some (AuctioneerPck.newBid ⟨5000, 6000, 5, 42894, 219657, "Payback", "link1"⟩) ∧
    (dispatchAuctioneer [3, 4] (AuctioneerPck.newBid
        ⟨5000, 6000, 5, 42894, 219657, "Payback", "link1"⟩)).map Prod.fst = [3, 4] ∧
    ∀ p ∈ dispatchAuctioneer [3, 4] (AuctioneerPck.newBid
        ⟨5000, 6000, 5, 42894, 219657, "Payback", "link1"⟩),
      p.2 = AuctioneerPck.newBid ⟨5000, 6000, 5, 42894, 219657, "Payback", "link1"⟩ :=
  auctioneer_newBid_dispatch newBidDecoder [3, 4] "S" 1 "5::/auctioneer:NB" "M8"
    5000 6000 5 219657 42894 "42894" "Payback" "link1"
    (by decide) (by decide) (by decide) (by decide) rfl rfl rfl
